import Mathlib

/-!
# ZeroVM bootstrap (`src/service_runtime/sel_main.c`)

A shallow embedding of the functions of `sel_main.c`:
`ParseCommandLine`, `SetZVMState`, `ValidateNexe`, `EchoToFile`,
`ExternalAccounting` and `main`.

The C code is a sequence of calls into libc, glib and the rest of the
runtime.  Every such call whose result the code looks at is answered by a
field of `World` (the environment of one run), and every call that acts on
the outside is recorded, in program order, in the trace of the machine
state `St`.  The execution context `struct NaClApp` is the `nap` component
of `St`.  A function of the C file becomes a computation in the monad `M`
(state, trace, and early termination of the process).
-/

namespace ZeroVM

/-! ## Data model -/

/-- The load status `NaClErrorCode`.  Its declaration is in a header that is
not part of the sources; `sel_main.c` names `LOAD_OK` and `LOAD_INTERNAL`
and only ever compares a status with `LOAD_OK`.  Every other enumerator is
`LOAD_OTHER n`. -/
inductive NaClErrorCode
  | LOAD_OK
  | LOAD_INTERNAL
  | LOAD_OTHER (code : Nat)
  deriving DecidableEq, Repr

/-- The local `enum ValidationState` of `ValidateNexe` (lines 142-146). -/
inductive ValidationState
  | NotValidated
  | ValidationOK
  | ValidationFailed
  deriving DecidableEq, Repr

/-- The first argument of `NaClLog`: the named severities used in the file,
or a plain detail level as in `NaClLog(2, ...)`. -/
inductive LogLevel
  | LOG_INFO
  | LOG_WARNING
  | LOG_ERROR
  | LOG_FATAL
  | detail (n : Nat)
  deriving DecidableEq, Repr

/-- The fields of `struct SystemManifest` that `sel_main.c` touches.  A
`char *` that may be `NULL` is an `Option String`. -/
structure SystemManifest where
  nexe : Option String
  extended_accounting : Option String
  deriving DecidableEq, Repr

/-- The fields of `struct NaClApp` that `sel_main.c` touches.  `zvm_state`
is the character array as a map from index to byte.  `system_manifest` is
the manifest the pointer refers to: `main` points it at its local `sys_mft`
before anything else runs, so the two `assert(... != NULL)` of the file
hold by construction in this embedding. -/
structure NaClApp where
  trusted_code : Int
  system_manifest : SystemManifest
  verbosity : Int
  skip_qualification : Int
  fuzzing_quit_after_load : Int
  handle_signals : Int
  skip_validator : Int
  user_side_flag : Int
  zvm_state : Nat → Nat
  validation_state : ValidationState
  module_load_status : NaClErrorCode

/-- The two I/O channels `main` owns: `gout` and `main_file`. -/
inductive Chan
  | gout
  | main_file
  deriving DecidableEq, Repr

/-- One observable action of a run.  The constructors carry the name of the
called function; the arguments are the ones the claims talk about, and a
trailing result is what the call returned.  `ParseCommandLine`,
`ValidateNexe`, `ExternalAccounting` and `SetZVMState` mark the entry into
the function of that name. -/
inductive Ev
  | SetZVMState
  | openlog
  | closelog
  | NaClSignalHandlerInit
  | NaClAllModulesInit
  | NaClPerfCounterCtor
  | fflush
  | GioFileRefCtor (r : Int)
  | ParseCommandLine
  | NaClLogGetVerbosity
  | getopt (r : Option Char)
  | NaClLog (level : LogLevel) (fmt : String)
  | EtagCtor
  | NaClLogIncrVerbosity
  | puts
  | ManifestCtor (name : String) (r : Int)
  | GetValueByKey (key : String)
  | ValidateNexe
  | g_spawn_sync (prog : String) (arg : Option String) (r : Option Int)
  | NaClLogGetGio
  | NaClAppCtor (r : Int)
  | NaClRunSelQualificationTests (r : NaClErrorCode)
  | NaClSignalHandlerFini
  | NaClSignalAssertNoHandlers
  | GioMemoryFileSnapshotCtor (fn : Option String) (r : Int)
  | NaClPerfCounterMark (s : String)
  | NaClPerfCounterIntervalLast
  | NaClAppLoadFile (gio : Chan) (r : NaClErrorCode)
  | Close (gio : Chan) (r : Int)
  | Dtor (gio : Chan)
  | SystemManifestCtor
  | LastDefenseLine
  | ExternalAccounting
  | getpid
  | stat (path : String) (isdir : Bool)
  | rmdir (path : String) (r : Int)
  | mkdir (path : String) (r : Int)
  | malloc (size : Nat) (ok : Bool)
  | fopen (path : String) (ok : Bool)
  | fprintf (path : String) (code : Int) (r : Int)
  | fclose (path : String) (r : Int)
  | setjmp
  | NaClCreateMainThread
  deriving DecidableEq, Repr

/-- What becomes of the payload thread once `NaClCreateMainThread` is
called: the call returns 0 (creation failed), control comes back to the
saved `user_exit` context (or the call returns non-zero), or the payload
never gives control back. -/
inductive ThreadResult
  | failed
  | returned
  | blocks
  deriving DecidableEq, Repr

/-- The environment of one run: the values of the constants that
`sel_main.c` takes from headers outside the sources, and the answer of
every external call whose result the code inspects. -/
structure World where
  /-- the macro `SIGNAL_STRLEN` -/
  SIGNAL_STRLEN : Nat
  /-- the macro `BIG_ENOUGH_SPACE` -/
  BIG_ENOUGH_SPACE : Nat
  VALIDATOR_NAME : String
  CGROUPS_FOLDER : String
  CGROUPS_TASKS : String
  CGROUPS_USER_CPU : String
  CGROUPS_MEMORY : String
  CGROUPS_SWAP : String
  /-- `argv`, used only to log the argument list -/
  argv : List String
  /-- the successive results of `getopt(argc, argv, "+FeQsSv:M:")` before
  it returns -1, each with the `optarg` it leaves -/
  getopt : List (Char × String)
  atoi : String → Int
  NaClLogGetVerbosity : Int
  /-- `ManifestCtor(name)`: 0 on success -/
  ManifestCtor : String → Int
  GetValueByKey : String → Option String
  /-- `GioFileRefCtor(&gout, stdout)`: 0 on failure -/
  GioFileRefCtor : Int
  /-- `g_spawn_sync`: `none` when it returns FALSE (the validator could not
  be started), `some st` when it returns TRUE and stores `st` in
  `exit_status` -/
  g_spawn_sync : Option Int
  /-- `NaClAppCtor(nap)`: 0 on failure -/
  NaClAppCtor : Int
  /-- the fault-injection site "pq" of `NACL_FI_VAL`: `some v` when a fault
  is injected there, in which case the wrapped expression is not
  evaluated and `v` is the value -/
  pq_fault : Option NaClErrorCode
  NaClRunSelQualificationTests : NaClErrorCode
  /-- whether the sanity check `NaClSignalAssertNoHandlers` passes -/
  NaClSignalAssertNoHandlers : Bool
  /-- `GioMemoryFileSnapshotCtor(&main_file, nexe)`: 0 on failure -/
  GioMemoryFileSnapshotCtor : Int
  NaClAppLoadFile : NaClErrorCode
  /-- the `Close` entry of the snapshot channel: -1 on error -/
  Close : Int
  getpid : Int
  /-- `stat(path, &st) == 0 && S_ISDIR(st.st_mode)` -/
  stat : String → Bool
  rmdir : String → Int
  mkdir : String → Int
  /-- whether `malloc` returns a non-NULL pointer -/
  malloc : Bool
  /-- whether `fopen(path, "w")` returns a non-NULL stream -/
  fopen : String → Bool
  /-- the value `fprintf` returns for the stream opened on `path`
  (negative on an output error) -/
  fprintf : String → Int
  /-- the value `fclose` returns for the stream opened on `path` -/
  fclose : String → Int
  NaClCreateMainThread : ThreadResult

/-- The machine state: the execution context, the global `syscallback`,
and the trace of actions so far (oldest first). -/
structure St where
  nap : NaClApp
  syscallback : Int
  trace : List Ev

/-- How a run ends when it does not fall off the end of a function:
`NaClExit(code)`, libc `exit(code)`, an abort (`COND_ABORT`, or `NaClLog` at
`LOG_FATAL`) with its message, or the payload keeping control for ever. -/
inductive Outcome
  | NaClExit (code : Int)
  | exit (code : Int)
  | abort (msg : String)
  | blocked
  deriving DecidableEq, Repr

/-- The result of running a computation: it returned `a`, or the process
ended with outcome `o`; in both cases `s` is the state reached. -/
inductive Step (α : Type)
  | ok (a : α) (s : St)
  | halt (o : Outcome) (s : St)

/-- Computations over the machine state that may end the process. -/
def M (α : Type) : Type := St → Step α

/-- The state a step ends in. -/
def Step.st {α : Type} : Step α → St
  | .ok _ s => s
  | .halt _ s => s

/-- The outcome of a step that ended the process. -/
def Step.outcome {α : Type} : Step α → Option Outcome
  | .ok _ _ => none
  | .halt o _ => some o

/-- Whether the step returned to its caller. -/
def Step.returns {α : Type} : Step α → Bool
  | .ok _ _ => true
  | .halt _ _ => false

def M.pure {α : Type} (a : α) : M α := fun s => .ok a s

def M.bind {α β : Type} (m : M α) (f : α → M β) : M β := fun s =>
  match m s with
  | .ok a s1 => f a s1
  | .halt o s1 => .halt o s1

instance : Monad M where
  pure := M.pure
  bind := M.bind

/-- Record an action in the trace. -/
def emit (e : Ev) : M Unit := fun s => .ok () { s with trace := s.trace ++ [e] }

/-- End the process. -/
def halt {α : Type} (o : Outcome) : M α := fun s => .halt o s

/-- Read the execution context. -/
def getNap : M NaClApp := fun s => .ok s.nap s

/-- Update the execution context. -/
def setNap (f : NaClApp → NaClApp) : M Unit := fun s => .ok () { s with nap := f s.nap }

/-- Modelled from the spec: the macro `COND_ABORT(cond, msg)` of
`src/main/tools.h`, which is not among the sources.  When the condition
holds the failure is fatal: the process is aborted with the message (§7:
"All fatal conditions are logged ... before the process exits with a
non-zero status"); otherwise nothing happens. -/
def COND_ABORT (cond : Bool) (msg : String) : M Unit :=
  if cond then halt (.abort msg) else pure ()

/-- Modelled from the spec: `NaClLog(level, fmt, ...)` of `nacl_log.c`, which
is not among the sources.  The message is logged; at `LOG_FATAL` the
condition is fatal and the process is aborted (§4.6, §7). -/
def NaClLog (level : LogLevel) (fmt : String) : M Unit := do
  emit (.NaClLog level fmt)
  if level = .LOG_FATAL then halt (.abort fmt) else pure ()

/-- Modelled from the spec: `NaClExit(code)` of the runtime, which is not
among the sources, ends the process with the status it is given (§6,
"Process exit code"). -/
def NaClExit {α : Type} (code : Int) : M α := halt (.NaClExit code)

/-- Modelled from the spec: the exit status of the process is zero.  An
abort ends the process with a non-zero status (§7); `NaClExit` and `exit`
end it with their argument. -/
def Outcome.exitZero : Outcome → Bool
  | .NaClExit c => c == 0
  | .exit c => c == 0
  | .abort _ => false
  | .blocked => false

/-- Modelled from the spec: the process ended with a non-zero exit status
(see `Outcome.exitZero`); a payload that never gives control back has no
exit status. -/
def Outcome.exitNonZero : Outcome → Bool
  | .NaClExit c => c != 0
  | .exit c => c != 0
  | .abort _ => true
  | .blocked => false

/-! ## libc formatting -/

/-- The call `snprintf(buf, size, "%s", msg)` on a byte buffer: with
`size = 0` nothing is written; otherwise the first
`min (length msg) (size - 1)` bytes of `msg` are stored from index 0 and a
null byte follows them.  `msg` is the C string without its terminator. -/
def snprintf_s (buf : Nat → Nat) (size : Nat) (msg : List Nat) : Nat → Nat :=
  if size = 0 then buf
  else fun i =>
    if i < min msg.length (size - 1) then msg.getD i 0
    else if i = min msg.length (size - 1) then 0
    else buf i

/-- The text `snprintf(buf, size, fmt, ...)` leaves in `buf` when the
formatted text is `s` and `size > 0`: at most `size - 1` characters. -/
def snprintf_text (size : Nat) (s : String) : String := s.take (size - 1)

/-- The bytes of a string literal. -/
def cstr (s : String) : List Nat := s.toUTF8.toList.map UInt8.toNat

/-! ## `sel_main.c` -/

/-- The warning of the `-s` case (line 70). -/
def MSG_VALIDATION_DISABLED : String := "validation disabled by -s\n"

/-- The warning of the `-Q` case (lines 91-92). -/
def MSG_QUALIFICATION_DISABLED : String :=
  "PLATFORM QUALIFICATION DISABLED BY -Q - Native Client\x27s sandbox will be unreliable!\n"

/-- `ZeroVMLogCtor` (lines 25-38). -/
def ZeroVMLogCtor : M Unit := emit .openlog

/-- `ZeroVMLogDtor` (lines 41-45). -/
def ZeroVMLogDtor : M Unit := emit .closelog

/-- The loop `while(i--) NaClLogIncrVerbosity();` (lines 85-86) for a
non-negative `i`. -/
def incrVerbosityLoop : Nat → M Unit
  | 0 => pure ()
  | i + 1 => do
    emit .NaClLogIncrVerbosity
    incrVerbosityLoop i

/-- The loop `for(i = 0; i < argc; ++i) NaClLog(LOG_INFO, "%s\n", argv[i]);`
(lines 106-107). -/
def logArgs : List String → M Unit
  | [] => pure ()
  | _ :: rest => do
    NaClLog .LOG_INFO "%s\n"
    logArgs rest

/-- The `while((opt = getopt(...)) != -1) switch(opt)` loop of
`ParseCommandLine` (lines 61-100), run on the results `getopt` still has
to deliver; the local `manifest_name` is threaded through. -/
def optionLoop (w : World) : List (Char × String) → Option String → M (Option String)
  | [], manifest_name => do
    emit (.getopt none)
    pure manifest_name
  | (opt, optarg) :: rest, manifest_name => do
    emit (.getopt (some opt))
    if opt = 'M' then
      optionLoop w rest (some optarg)
    else if opt = 's' then do
      setNap fun nap => { nap with skip_validator := 1 }
      NaClLog .LOG_WARNING MSG_VALIDATION_DISABLED
      optionLoop w rest manifest_name
    else if opt = 'F' then do
      setNap fun nap => { nap with fuzzing_quit_after_load := 1 }
      optionLoop w rest manifest_name
    else if opt = 'e' then do
      emit .EtagCtor
      optionLoop w rest manifest_name
    else if opt = 'S' then do
      setNap fun nap => { nap with handle_signals := 0 }
      optionLoop w rest manifest_name
    else if opt = 'v' then do
      let i := w.atoi optarg
      let i := if i < 1 then 0 else i
      setNap fun nap => { nap with verbosity := i }
      incrVerbosityLoop i.toNat
      optionLoop w rest manifest_name
    else if opt = 'Q' then do
      setNap fun nap => { nap with skip_qualification := 1 }
      NaClLog .LOG_WARNING MSG_QUALIFICATION_DISABLED
      optionLoop w rest manifest_name
    else do
      NaClLog .LOG_ERROR "ERROR: unknown option: [%c]\n\n"
      emit .puts
      halt (.exit 1)

/-- `ParseCommandLine` (lines 48-123). -/
def ParseCommandLine (w : World) : M Unit := do
  emit .ParseCommandLine
  /- set defaults -/
  emit .NaClLogGetVerbosity
  setNap fun nap => { nap with verbosity := w.NaClLogGetVerbosity }
  setNap fun nap => { nap with skip_qualification := 0 }
  setNap fun nap => { nap with fuzzing_quit_after_load := 0 }
  setNap fun nap => { nap with handle_signals := 1 }
  let manifest_name ← optionLoop w w.getopt none
  /- show zerovm command line -/
  let nap ← getNap
  if nap.verbosity ≠ 0 then do
    NaClLog .LOG_INFO "zerovm argument list:\n"
    logArgs w.argv
  /- parse manifest file specified in cmdline -/
  match manifest_name with
  | none => do
    emit .puts
    halt (.exit 1)
  | some name => do
    emit (.ManifestCtor name (w.ManifestCtor name))
    COND_ABORT (w.ManifestCtor name != 0) "Invalid manifest file"
    /- set available nap and manifest fields -/
    setNap fun nap => { nap with user_side_flag := 0 }
    emit (.GetValueByKey "Nexe")
    setNap fun nap =>
      { nap with system_manifest := { nap.system_manifest with nexe := w.GetValueByKey "Nexe" } }
    fun s => .ok () { s with syscallback := 0 }

/-- `SetZVMState` (lines 127-131). -/
def SetZVMState (w : World) (msg : List Nat) : M Unit := do
  emit .SetZVMState
  setNap fun nap => { nap with zvm_state := snprintf_s nap.zvm_state w.SIGNAL_STRLEN msg }
  setNap fun nap => { nap with zvm_state := Function.update nap.zvm_state w.SIGNAL_STRLEN 0 }

/-- `ValidateNexe` (lines 137-164).  `exit_status` starts at 0 and is
stored by `g_spawn_sync` only when the validator was started. -/
def ValidateNexe (w : World) : M Unit := do
  emit .ValidateNexe
  /- skip validation? -/
  setNap fun nap => { nap with validation_state := .NotValidated }
  let nap ← getNap
  if nap.skip_validator ≠ 0 then
    pure ()
  else do
    /- prepare command line and run it -/
    emit (.g_spawn_sync w.VALIDATOR_NAME nap.system_manifest.nexe w.g_spawn_sync)
    COND_ABORT w.g_spawn_sync.isNone "cannot start validator"
    let exit_status : Int := w.g_spawn_sync.getD 0
    /- check the result -/
    setNap fun nap =>
      { nap with validation_state := if exit_status = 0 then .ValidationOK else .ValidationFailed }
    let nap ← getNap
    COND_ABORT (nap.validation_state != .ValidationOK) "validation failed"

/-- `EchoToFile` (lines 167-174).  The values `fprintf` and `fclose`
return are not looked at. -/
def EchoToFile (w : World) (path : String) (code : Int) : M Unit := do
  emit (.fopen path (w.fopen path))
  COND_ABORT (!w.fopen path) "cannot create file"
  emit (.fprintf path code (w.fprintf path))
  emit (.fclose path (w.fclose path))

/-- `ExternalAccounting` (lines 177-223).  `length` is the value the first
`snprintf` returns (the length of the untruncated text); `malloc` leaves a
non-NULL pointer to a buffer that `strcpy` then fills. -/
def ExternalAccounting (w : World) : M Unit := do
  emit .ExternalAccounting
  emit .getpid
  let pid : Int := w.getpid
  /- exit if the cgroups folder is missing -/
  setNap fun nap =>
    { nap with system_manifest := { nap.system_manifest with extended_accounting := none } }
  emit (.stat w.CGROUPS_FOLDER (w.stat w.CGROUPS_FOLDER))
  if !w.stat w.CGROUPS_FOLDER then
    pure ()
  else do
    /- fail if folder of same pid exists and locked -/
    let length : Nat := (w.CGROUPS_FOLDER ++ "/" ++ toString pid).length
    let cfolder : String :=
      snprintf_text w.BIG_ENOUGH_SPACE (w.CGROUPS_FOLDER ++ "/" ++ toString pid)
    emit (.stat cfolder (w.stat cfolder))
    (if w.stat cfolder then do
        emit (.rmdir cfolder (w.rmdir cfolder))
        COND_ABORT (w.rmdir cfolder != 0) "current pid in cgroups is already taken"
      else pure () : M Unit)
    /- create folder of own pid -/
    emit (.mkdir cfolder (w.mkdir cfolder))
    COND_ABORT (w.mkdir cfolder != 0) "cannot create pid folder in cgroups"
    /- store accounting folder to the system manifest -/
    emit (.malloc (length + 1) w.malloc)
    setNap fun nap =>
      { nap with system_manifest :=
          { nap.system_manifest with extended_accounting := if w.malloc then some "" else none } }
    COND_ABORT (!w.malloc) "cannot allocate memory to hold accounting folder name"
    setNap fun nap =>
      { nap with system_manifest := { nap.system_manifest with extended_accounting := some cfolder } }
    /- create special file in it with own pid -/
    EchoToFile w (snprintf_text w.BIG_ENOUGH_SPACE (cfolder ++ "/" ++ w.CGROUPS_TASKS)) pid
    /- create user cpu accountant -/
    EchoToFile w (snprintf_text w.BIG_ENOUGH_SPACE (cfolder ++ "/" ++ w.CGROUPS_USER_CPU)) 1
    /- create memory accountant -/
    EchoToFile w (snprintf_text w.BIG_ENOUGH_SPACE (cfolder ++ "/" ++ w.CGROUPS_MEMORY)) 1
    /- create swap accountant -/
    EchoToFile w (snprintf_text w.BIG_ENOUGH_SPACE (cfolder ++ "/" ++ w.CGROUPS_SWAP)) 1

/-- Modelled from the spec: the macro `NACL_FI_VAL(site, type, expr)` of
`src/fault_injection/fault_injection.h`, which is not among the sources
(the spec does not describe fault injection, so both behaviours are kept):
when a fault is injected at the site its value is the result and `expr` is
not evaluated; otherwise the result is that of `expr`. -/
def NACL_FI_VAL {α : Type} (fault : Option α) (expr : M α) : M α :=
  match fault with
  | some v => pure v
  | none => expr

/-- Modelled from the spec: `NaClSignalAssertNoHandlers` of `nacl_signal.c`,
which is not among the sources: the post-removal self-check, "fatal if the
check fails" (§4.4). -/
def NaClSignalAssertNoHandlers (w : World) : M Unit := do
  emit .NaClSignalAssertNoHandlers
  if w.NaClSignalAssertNoHandlers then pure ()
  else halt (.abort "signal handlers are still registered")

/-- The macro `PERF_CNT(str)` (lines 304-306). -/
def PERF_CNT (str : String) : M Unit := do
  emit (.NaClPerfCounterMark str)
  emit .NaClPerfCounterIntervalLast

/-- The context after `memset(nap, 0, sizeof *nap)` and
`memset(nap->system_manifest, 0, ...)`. -/
def NaClApp.zero : NaClApp where
  trusted_code := 0
  system_manifest := { nexe := none, extended_accounting := none }
  verbosity := 0
  skip_qualification := 0
  fuzzing_quit_after_load := 0
  handle_signals := 0
  skip_validator := 0
  user_side_flag := 0
  zvm_state := fun _ => 0
  validation_state := .NotValidated
  module_load_status := .LOAD_OK

/-- The call `NaClCreateMainThread(nap)` under the `setjmp` of line 367:
it returns 0 when the thread cannot be created; when the payload gives
control back, either the call returns non-zero or a `longjmp` to
`user_exit` makes `setjmp` return non-zero, and in both cases the body of
the `if` is left without the fatal log, which is what the value 1 stands
for; a payload that keeps control ends the run as `blocked`. -/
def NaClCreateMainThread (w : World) : M Int := do
  emit .NaClCreateMainThread
  match w.NaClCreateMainThread with
  | .failed => pure 0
  | .returned => pure 1
  | .blocks => halt .blocked

/-- `main` (lines 225-382).  The local `errcode` is passed on as a value:
each block that may assign it yields its new value.  A block of the C
code that control leaves at its end (an `if` without `else`) is a
parenthesised computation.  Every `nap->field` reads the context at that
point. -/
def main (w : World) : M Int := do
  /- `errcode` is `LOAD_INTERNAL` and is not read before line 280 -/
  /- initial settings -/
  setNap fun _ => NaClApp.zero
  setNap fun nap => { nap with trusted_code := 1 }
  setNap fun nap => { nap with system_manifest := { nexe := none, extended_accounting := none } }
  SetZVMState w (cstr "nexe didn\x27t start")
  ZeroVMLogCtor
  emit .NaClSignalHandlerInit
  emit .NaClAllModulesInit
  emit .NaClPerfCounterCtor
  emit .fflush
  emit (.GioFileRefCtor w.GioFileRefCtor)
  COND_ABORT (w.GioFileRefCtor == 0) "Could not create general standard output channel"
  ParseCommandLine w
  /- validate given nexe and run/fail/exit -/
  ValidateNexe w
  emit .NaClLogGetGio
  /- the dyn_array constructor 1st call -/
  emit (.NaClAppCtor w.NaClAppCtor)
  COND_ABORT (w.NaClAppCtor == 0) "Error while constructing app state"
  let errcode := NaClErrorCode.LOAD_OK
  /- We use the signal handler to verify a signal took place. -/
  let errcode ← (do
    if (← getNap).skip_qualification = 0 then do
      let pq_error ← NACL_FI_VAL w.pq_fault (do
        emit (.NaClRunSelQualificationTests w.NaClRunSelQualificationTests)
        pure w.NaClRunSelQualificationTests)
      if NaClErrorCode.LOAD_OK ≠ pq_error then do
        setNap fun nap => { nap with module_load_status := pq_error }
        NaClLog .LOG_ERROR "Error while loading \"%s\": %s\n"
        pure pq_error
      else pure errcode
    else pure errcode : M NaClErrorCode)
  /- Remove the signal handler if we are not using it. -/
  (do
    if (← getNap).handle_signals = 0 then do
      emit .NaClSignalHandlerFini
      NaClSignalAssertNoHandlers w
    else pure () : M Unit)
  emit (.GioMemoryFileSnapshotCtor (← getNap).system_manifest.nexe w.GioMemoryFileSnapshotCtor)
  (if w.GioMemoryFileSnapshotCtor = 0 then do
      NaClLog .LOG_ERROR "%s"
      NaClLog .LOG_FATAL "Cannot open \"%s\".\n"
    else pure () : M Unit)
  PERF_CNT "SnapshotNaclFile"
  /- validate untrusted code (nexe) -/
  let errcode ← (if NaClErrorCode.LOAD_OK = errcode then do
      NaClLog (.detail 2) "Loading nacl file %s (non-RPC)\n"
      emit (.NaClAppLoadFile .main_file w.NaClAppLoadFile)
      let errcode := w.NaClAppLoadFile
      (if NaClErrorCode.LOAD_OK ≠ errcode then do
          NaClLog .LOG_ERROR "Error while loading \"%s\": %s\n"
          NaClLog .LOG_ERROR
            "Using the wrong type of nexe (nacl-x86-32 on an x86-64 or vice versa)\nor a corrupt nexe file may be responsible for this error.\n"
        else pure () : M Unit)
      PERF_CNT "AppLoadEnd"
      setNap fun nap => { nap with module_load_status := errcode }
      pure errcode
    else pure errcode : M NaClErrorCode)
  emit (.Close .main_file w.Close)
  (if w.Close = -1 then
      NaClLog .LOG_ERROR "Error while closing \"%s\".\n"
    else pure () : M Unit)
  emit (.Dtor .main_file)
  (do
    if (← getNap).fuzzing_quit_after_load ≠ 0 then NaClExit 0 else pure () : M Unit)
  /- construct system and host manifests -/
  emit .SystemManifestCtor
  /- error reporting done; can quit now if there was an error earlier -/
  (if NaClErrorCode.LOAD_OK ≠ errcode then
      NaClLog .LOG_FATAL "Not running app code since errcode is %s (%d)\n"
    else pure () : M Unit)
  PERF_CNT "CreateMainThread"
  /- Make sure all the file buffers are flushed before entering the nexe -/
  emit .fflush
  emit .LastDefenseLine
  /- start external accounting -/
  ExternalAccounting w
  /- set user code trap() exit location -/
  emit .setjmp
  /- pass control to the user code -/
  (do
    let created ← NaClCreateMainThread w
    if created = 0 then NaClLog .LOG_FATAL "creating main thread failed\n" else pure () : M Unit)
  PERF_CNT "WaitForMainThread"
  PERF_CNT "SelMainEnd"
  /- report to host. call destructors. exit -/
  ZeroVMLogDtor
  NaClExit 0
  /- Unreachable, but having the return prevents a compiler error. -/
  return -1

/-! ### The rest of `main` from a given line on

`main` is the single definition above.  For the proofs its text is cut at
the points where the branches of a block meet again and before the calls
of `ParseCommandLine`, `ValidateNexe` and `ExternalAccounting`;
`mainFrom270` to `mainFrom366` are the remainders of `main` from these
points on, and `main_eq` shows that `main` is its first lines followed by
`mainFrom270`. -/

/-- The lines 366-381 of `main`. -/
def mainFrom366 (w : World) : M Int := do
  /- set user code trap() exit location -/
  emit .setjmp
  /- pass control to the user code -/
  (do
    let created ← NaClCreateMainThread w
    if created = 0 then NaClLog .LOG_FATAL "creating main thread failed\n" else pure () : M Unit)
  PERF_CNT "WaitForMainThread"
  PERF_CNT "SelMainEnd"
  /- report to host. call destructors. exit -/
  ZeroVMLogDtor
  NaClExit 0
  /- Unreachable, but having the return prevents a compiler error. -/
  return -1

/-- The lines 364-381 of `main`. -/
def mainFrom364 (w : World) : M Int := do
  /- start external accounting -/
  ExternalAccounting w
  mainFrom366 w

/-- The lines 336-381 of `main`. -/
def mainFrom336 (w : World) (errcode : NaClErrorCode) : M Int := do
  emit (.Dtor .main_file)
  (do
    if (← getNap).fuzzing_quit_after_load ≠ 0 then NaClExit 0 else pure () : M Unit)
  /- construct system and host manifests -/
  emit .SystemManifestCtor
  /- error reporting done; can quit now if there was an error earlier -/
  (if NaClErrorCode.LOAD_OK ≠ errcode then
      NaClLog .LOG_FATAL "Not running app code since errcode is %s (%d)\n"
    else pure () : M Unit)
  PERF_CNT "CreateMainThread"
  /- Make sure all the file buffers are flushed before entering the nexe -/
  emit .fflush
  emit .LastDefenseLine
  mainFrom364 w

/-- The lines 333-381 of `main`. -/
def mainFrom333 (w : World) (errcode : NaClErrorCode) : M Int := do
  emit (.Close .main_file w.Close)
  (if w.Close = -1 then
      NaClLog .LOG_ERROR "Error while closing \"%s\".\n"
    else pure () : M Unit)
  mainFrom336 w errcode

/-- The lines 308-381 of `main`. -/
def mainFrom308 (w : World) (errcode : NaClErrorCode) : M Int := do
  emit (.GioMemoryFileSnapshotCtor (← getNap).system_manifest.nexe w.GioMemoryFileSnapshotCtor)
  (if w.GioMemoryFileSnapshotCtor = 0 then do
      NaClLog .LOG_ERROR "%s"
      NaClLog .LOG_FATAL "Cannot open \"%s\".\n"
    else pure () : M Unit)
  PERF_CNT "SnapshotNaclFile"
  /- validate untrusted code (nexe) -/
  let errcode ← (if NaClErrorCode.LOAD_OK = errcode then do
      NaClLog (.detail 2) "Loading nacl file %s (non-RPC)\n"
      emit (.NaClAppLoadFile .main_file w.NaClAppLoadFile)
      let errcode := w.NaClAppLoadFile
      (if NaClErrorCode.LOAD_OK ≠ errcode then do
          NaClLog .LOG_ERROR "Error while loading \"%s\": %s\n"
          NaClLog .LOG_ERROR
            "Using the wrong type of nexe (nacl-x86-32 on an x86-64 or vice versa)\nor a corrupt nexe file may be responsible for this error.\n"
        else pure () : M Unit)
      PERF_CNT "AppLoadEnd"
      setNap fun nap => { nap with module_load_status := errcode }
      pure errcode
    else pure errcode : M NaClErrorCode)
  mainFrom333 w errcode

/-- The lines 297-381 of `main`. -/
def mainFrom297 (w : World) (errcode : NaClErrorCode) : M Int := do
  /- Remove the signal handler if we are not using it. -/
  (do
    if (← getNap).handle_signals = 0 then do
      emit .NaClSignalHandlerFini
      NaClSignalAssertNoHandlers w
    else pure () : M Unit)
  mainFrom308 w errcode

/-- The lines 276-381 of `main`. -/
def mainFrom276 (w : World) : M Int := do
  emit .NaClLogGetGio
  /- the dyn_array constructor 1st call -/
  emit (.NaClAppCtor w.NaClAppCtor)
  COND_ABORT (w.NaClAppCtor == 0) "Error while constructing app state"
  let errcode := NaClErrorCode.LOAD_OK
  /- We use the signal handler to verify a signal took place. -/
  let errcode ← (do
    if (← getNap).skip_qualification = 0 then do
      let pq_error ← NACL_FI_VAL w.pq_fault (do
        emit (.NaClRunSelQualificationTests w.NaClRunSelQualificationTests)
        pure w.NaClRunSelQualificationTests)
      if NaClErrorCode.LOAD_OK ≠ pq_error then do
        setNap fun nap => { nap with module_load_status := pq_error }
        NaClLog .LOG_ERROR "Error while loading \"%s\": %s\n"
        pure pq_error
      else pure errcode
    else pure errcode : M NaClErrorCode)
  mainFrom297 w errcode

/-- The lines 272-381 of `main`. -/
def mainFrom272 (w : World) : M Int := do
  /- validate given nexe and run/fail/exit -/
  ValidateNexe w
  mainFrom276 w

/-- The lines 270-381 of `main`. -/
def mainFrom270 (w : World) : M Int := do
  ParseCommandLine w
  mainFrom272 w

/-- The lines 234-269 of `main`, followed by the rest. -/
def mainFrom234 (w : World) : M Int := do
  /- `errcode` is `LOAD_INTERNAL` and is not read before line 280 -/
  /- initial settings -/
  setNap fun _ => NaClApp.zero
  setNap fun nap => { nap with trusted_code := 1 }
  setNap fun nap => { nap with system_manifest := { nexe := none, extended_accounting := none } }
  SetZVMState w (cstr "nexe didn\x27t start")
  ZeroVMLogCtor
  emit .NaClSignalHandlerInit
  emit .NaClAllModulesInit
  emit .NaClPerfCounterCtor
  emit .fflush
  emit (.GioFileRefCtor w.GioFileRefCtor)
  COND_ABORT (w.GioFileRefCtor == 0) "Could not create general standard output channel"
  mainFrom270 w

/-- The state `main` starts from: nothing has happened yet.  `main` clears
the context itself, so its initial content does not matter. -/
def St.init : St := { nap := NaClApp.zero, syscallback := 0, trace := [] }

/-! ## Vocabulary of the properties -/

/-- The option characters of the `getopt` string `"+FeQsSv:M:"`. -/
def recognised (opt : Char) : Bool :=
  opt = 'F' || opt = 'e' || opt = 'Q' || opt = 's' || opt = 'S' || opt = 'v' || opt = 'M'

/-- The actions that `ParseCommandLine` can perform after its entry. -/
def Ev.isParse : Ev → Bool
  | .NaClLogGetVerbosity => true
  | .getopt _ => true
  | .NaClLog level _ => level != .LOG_FATAL
  | .EtagCtor => true
  | .NaClLogIncrVerbosity => true
  | .puts => true
  | .ManifestCtor _ _ => true
  | .GetValueByKey _ => true
  | _ => false

/-- The value `-v optarg` stores in `verbosity`: `atoi(optarg)`, or 0 when
that is below 1. -/
def verbosityOf (w : World) (optarg : String) : Int :=
  if w.atoi optarg < 1 then 0 else w.atoi optarg

/-- The context after one recognised option has been handled. -/
def optNapStep (w : World) (o : Char × String) (nap : NaClApp) : NaClApp :=
  if o.1 = 's' then { nap with skip_validator := 1 }
  else if o.1 = 'F' then { nap with fuzzing_quit_after_load := 1 }
  else if o.1 = 'S' then { nap with handle_signals := 0 }
  else if o.1 = 'v' then { nap with verbosity := verbosityOf w o.2 }
  else if o.1 = 'Q' then { nap with skip_qualification := 1 }
  else nap

/-- The context after a list of recognised options has been handled. -/
def optNap (w : World) : List (Char × String) → NaClApp → NaClApp
  | [], nap => nap
  | o :: rest, nap => optNap w rest (optNapStep w o nap)

/-- The actions one recognised option causes, after the `getopt` call that
delivered it. -/
def optEvents (w : World) (o : Char × String) : List Ev :=
  if o.1 = 's' then [.NaClLog .LOG_WARNING MSG_VALIDATION_DISABLED]
  else if o.1 = 'e' then [.EtagCtor]
  else if o.1 = 'v' then List.replicate (verbosityOf w o.2).toNat .NaClLogIncrVerbosity
  else if o.1 = 'Q' then [.NaClLog .LOG_WARNING MSG_QUALIFICATION_DISABLED]
  else []

/-- The actions of the option loop on a list of recognised options. -/
def optTrace (w : World) : List (Char × String) → List Ev
  | [] => [.getopt none]
  | o :: rest => .getopt (some o.1) :: (optEvents w o ++ optTrace w rest)

/-- The manifest name the option loop ends with: the argument of the last
`-M`, or the initial value. -/
def manifestOf : List (Char × String) → Option String → Option String
  | [], m => m
  | o :: rest, m => manifestOf rest (if o.1 = 'M' then some o.2 else m)

/-- The warnings of a trace, in order. -/
def warnings (tr : List Ev) : List String :=
  tr.filterMap fun e =>
    match e with
    | .NaClLog .LOG_WARNING msg => some msg
    | _ => none

/-- The warning an option asks for. -/
def warningOf (o : Char × String) : Option String :=
  if o.1 = 's' then some MSG_VALIDATION_DISABLED
  else if o.1 = 'Q' then some MSG_QUALIFICATION_DISABLED
  else none

/-- The verbosity the options ask for: that of the last `-v`, if any. -/
def lastVerbosity (w : World) : List (Char × String) → Option Int
  | [] => none
  | o :: rest =>
    match lastVerbosity w rest with
    | some v => some v
    | none => if o.1 = 'v' then some (verbosityOf w o.2) else none

/-- The number of times the options ask to raise the log verbosity. -/
def incrTotal (w : World) : List (Char × String) → Nat
  | [] => 0
  | o :: rest => (if o.1 = 'v' then (verbosityOf w o.2).toNat else 0) + incrTotal w rest

/-- The context as `main` prepares it before `ParseCommandLine`: all fields
zero except `trusted_code`, and `zvm_state` set by `SetZVMState`. -/
def preparedNap (w : World) : NaClApp :=
  { NaClApp.zero with
    trusted_code := 1
    zvm_state := Function.update
      (snprintf_s (fun _ => 0) w.SIGNAL_STRLEN (cstr "nexe didn\x27t start")) w.SIGNAL_STRLEN 0 }

/-! ## Running computations -/

@[simp] theorem pure_run {α : Type} (a : α) (s : St) : (pure a : M α) s = .ok a s := rfl

@[simp] theorem bind_run {α β : Type} (m : M α) (f : α → M β) (s : St) :
    (m >>= f) s = match m s with
      | .ok a s1 => f a s1
      | .halt o s1 => .halt o s1 := rfl

@[simp] theorem emit_run (e : Ev) (s : St) :
    emit e s = .ok () { s with trace := s.trace ++ [e] } := rfl

@[simp] theorem halt_run {α : Type} (o : Outcome) (s : St) : (halt o : M α) s = .halt o s := rfl

@[simp] theorem getNap_run (s : St) : getNap s = .ok s.nap s := rfl

@[simp] theorem setNap_run (f : NaClApp → NaClApp) (s : St) :
    setNap f s = .ok () { s with nap := f s.nap } := rfl

@[simp] theorem NaClExit_run {α : Type} (c : Int) (s : St) :
    (NaClExit c : M α) s = .halt (.NaClExit c) s := rfl

/-! ## `SetZVMState` -/

/-- C9: for every message, `SetZVMState` returns with `zvm_state` holding the
first `min (length msg) (SIGNAL_STRLEN - 1)` bytes of the message followed
by a null byte, the byte at index `SIGNAL_STRLEN` is null, and every byte at
an index greater than `SIGNAL_STRLEN` is the one that was there before. -/
theorem SetZVMState_bounded (w : World) (msg : List Nat) (s : St) :
    (SetZVMState w msg s).returns = true ∧
    (∀ i, i < min msg.length (w.SIGNAL_STRLEN - 1) →
      (SetZVMState w msg s).st.nap.zvm_state i = msg.getD i 0) ∧
    (SetZVMState w msg s).st.nap.zvm_state (min msg.length (w.SIGNAL_STRLEN - 1)) = 0 ∧
    (SetZVMState w msg s).st.nap.zvm_state w.SIGNAL_STRLEN = 0 ∧
    (∀ i, w.SIGNAL_STRLEN < i →
      (SetZVMState w msg s).st.nap.zvm_state i = s.nap.zvm_state i) := by
  simp only [SetZVMState, bind_run, emit_run, setNap_run, Step.returns, Step.st, snprintf_s]
  refine ⟨trivial, ?_, ?_, ?_, ?_⟩
  · intro i hi
    have h1 : i ≠ w.SIGNAL_STRLEN := by omega
    have h2 : w.SIGNAL_STRLEN ≠ 0 := by omega
    simp [Function.update, h1, h2, hi]
  · by_cases h0 : w.SIGNAL_STRLEN = 0
    · simp [Function.update, h0]
    · have h1 : min msg.length (w.SIGNAL_STRLEN - 1) ≠ w.SIGNAL_STRLEN := by omega
      simp [Function.update, h0, h1]
  · simp
  · intro i hi
    have h1 : i ≠ w.SIGNAL_STRLEN := by omega
    by_cases h0 : w.SIGNAL_STRLEN = 0
    · have h4 : i ≠ 0 := by omega
      simp [Function.update, h0, h4]
    · have h2 : ¬ i < min msg.length (w.SIGNAL_STRLEN - 1) := by omega
      have h3 : i ≠ min msg.length (w.SIGNAL_STRLEN - 1) := by omega
      simp [Function.update, h0, h1, h2, h3]

/-! ## `ParseCommandLine` -/

theorem incrVerbosityLoop_run (n : Nat) (s : St) :
    incrVerbosityLoop n s =
      .ok () { s with trace := s.trace ++ List.replicate n .NaClLogIncrVerbosity } := by
  induction n generalizing s with
  | zero => simp [incrVerbosityLoop]
  | succ n ih =>
    simp [incrVerbosityLoop, ih, List.replicate_succ]

theorem NaClLog_run (level : LogLevel) (fmt : String) (s : St) (h : level ≠ .LOG_FATAL) :
    NaClLog level fmt s = .ok () { s with trace := s.trace ++ [.NaClLog level fmt] } := by
  simp [NaClLog, h]

theorem NaClLog_fatal_run (fmt : String) (s : St) :
    NaClLog .LOG_FATAL fmt s =
      .halt (.abort fmt) { s with trace := s.trace ++ [.NaClLog .LOG_FATAL fmt] } := by
  simp [NaClLog]

theorem logArgs_run (l : List String) (s : St) :
    logArgs l s =
      .ok () { s with trace := s.trace ++ l.map fun _ => .NaClLog .LOG_INFO "%s\n" } := by
  induction l generalizing s with
  | nil => simp [logArgs]
  | cons a l ih => simp [logArgs, ih, NaClLog_run]

/-- On recognised options the loop returns: the context is `optNap`, the
local `manifest_name` is `manifestOf`, the new actions are `optTrace`. -/
theorem optionLoop_run (w : World) (opts : List (Char × String))
    (hrec : ∀ o ∈ opts, recognised o.1 = true) (m : Option String) (s : St) :
    optionLoop w opts m s =
      .ok (manifestOf opts m)
        { s with nap := optNap w opts s.nap, trace := s.trace ++ optTrace w opts } := by
  induction opts generalizing m s with
  | nil => simp [optionLoop, optNap, optTrace, manifestOf]
  | cons o rest ih =>
    obtain ⟨opt, optarg⟩ := o
    have hrest : ∀ o ∈ rest, recognised o.1 = true := fun o ho => hrec o (by simp [ho])
    have ho : recognised opt = true := hrec (opt, optarg) (by simp)
    simp only [recognised, Bool.or_eq_true, decide_eq_true_eq] at ho
    rcases ho with (((((rfl | rfl) | rfl) | rfl) | rfl) | rfl) | rfl <;>
      simp [optionLoop, optNap, optTrace, manifestOf, optNapStep, optEvents, ih hrest,
        NaClLog_run, incrVerbosityLoop_run, verbosityOf]

theorem optionLoop_cons_recognised (w : World) (opt : Char) (optarg : String)
    (rest : List (Char × String)) (ho : recognised opt = true) (m : Option String) (s : St) :
    optionLoop w ((opt, optarg) :: rest) m s =
      optionLoop w rest (if opt = 'M' then some optarg else m)
        { s with
          nap := optNapStep w (opt, optarg) s.nap
          trace := s.trace ++ .getopt (some opt) :: optEvents w (opt, optarg) } := by
  simp only [recognised, Bool.or_eq_true, decide_eq_true_eq] at ho
  rcases ho with (((((rfl | rfl) | rfl) | rfl) | rfl) | rfl) | rfl <;>
    simp [optionLoop, optNapStep, optEvents, NaClLog_run, incrVerbosityLoop_run, verbosityOf]

theorem optionLoop_cons_unknown (w : World) (opt : Char) (optarg : String)
    (rest : List (Char × String)) (ho : ¬ recognised opt = true) (m : Option String) (s : St) :
    optionLoop w ((opt, optarg) :: rest) m s =
      .halt (.exit 1)
        { s with
          trace := s.trace ++
            [.getopt (some opt), .NaClLog .LOG_ERROR "ERROR: unknown option: [%c]\n\n", .puts] } := by
  simp only [recognised, Bool.or_eq_true, decide_eq_true_eq, not_or] at ho
  obtain ⟨⟨⟨⟨⟨⟨h1, h2⟩, h3⟩, h4⟩, h5⟩, h6⟩, h7⟩ := ho
  simp [optionLoop, h1, h2, h3, h4, h5, h6, h7, NaClLog_run]

theorem optEvents_isParse (w : World) (o : Char × String) :
    ∀ e ∈ optEvents w o, Ev.isParse e = true := by
  intro e he
  unfold optEvents at he
  split_ifs at he <;> simp at he
  · subst he; simp [Ev.isParse]
  · subst he; simp [Ev.isParse]
  · obtain ⟨-, rfl⟩ := he; simp [Ev.isParse]
  · subst he; simp [Ev.isParse]

/-- Whatever `getopt` delivers, the option loop only performs actions of
`ParseCommandLine`, and it either returns or ends the process by `exit(1)`. -/
theorem optionLoop_cases (w : World) (opts : List (Char × String)) (m : Option String)
    (s : St) :
    ∃ tr nap1, (∀ e ∈ tr, Ev.isParse e = true) ∧
      ((∃ m1, optionLoop w opts m s = .ok m1 ⟨nap1, s.syscallback, s.trace ++ tr⟩) ∨
        optionLoop w opts m s = .halt (.exit 1) ⟨nap1, s.syscallback, s.trace ++ tr⟩) := by
  induction opts generalizing m s with
  | nil =>
    exact ⟨[.getopt none], s.nap, by simp [Ev.isParse], Or.inl ⟨m, by simp [optionLoop]⟩⟩
  | cons o rest ih =>
    obtain ⟨opt, optarg⟩ := o
    by_cases ho : recognised opt = true
    · rw [optionLoop_cons_recognised w opt optarg rest ho]
      obtain ⟨tr, nap1, htr, h⟩ := ih (if opt = 'M' then some optarg else m)
        { s with
          nap := optNapStep w (opt, optarg) s.nap
          trace := s.trace ++ .getopt (some opt) :: optEvents w (opt, optarg) }
      refine ⟨(.getopt (some opt) :: optEvents w (opt, optarg)) ++ tr, nap1, ?_, ?_⟩
      · intro e he
        simp only [List.cons_append, List.mem_cons, List.mem_append] at he
        rcases he with rfl | he | he
        · simp [Ev.isParse]
        · exact optEvents_isParse w _ e he
        · exact htr e he
      · simpa [List.append_assoc] using h
    · rw [optionLoop_cons_unknown w opt optarg rest ho]
      exact ⟨_, s.nap, by simp [Ev.isParse], Or.inr rfl⟩

/-- Whatever the command line, `ParseCommandLine` only performs its own
actions, and it either returns or ends the process with a non-zero status. -/
theorem ParseCommandLine_cases (w : World) (s : St) :
    ∃ tr nap1, (∀ e ∈ tr, Ev.isParse e = true) ∧
      ((∃ sc, ParseCommandLine w s = .ok () ⟨nap1, sc, s.trace ++ .ParseCommandLine :: tr⟩) ∨
        (∃ o, o.exitNonZero = true ∧
          ParseCommandLine w s =
            .halt o ⟨nap1, s.syscallback, s.trace ++ .ParseCommandLine :: tr⟩)) := by
  obtain ⟨tr, nap1, htr, h⟩ := optionLoop_cases w w.getopt none
    { s with
      nap := { s.nap with
        verbosity := w.NaClLogGetVerbosity
        skip_qualification := 0
        fuzzing_quit_after_load := 0
        handle_signals := 1 }
      trace := s.trace ++ [.ParseCommandLine, .NaClLogGetVerbosity] }
  have hpre : ∀ e ∈ [Ev.NaClLogGetVerbosity] ++ tr, Ev.isParse e = true := by
    intro e he
    simp only [List.cons_append, List.mem_cons, List.mem_append, List.nil_append] at he
    rcases he with rfl | he
    · simp [Ev.isParse]
    · exact htr e he
  rcases h with ⟨m1, h⟩ | h
  · have hlog : ∀ e ∈ (if nap1.verbosity ≠ 0 then
          Ev.NaClLog .LOG_INFO "zerovm argument list:\n" ::
            w.argv.map fun _ => Ev.NaClLog .LOG_INFO "%s\n"
        else []), Ev.isParse e = true := by
      intro e he
      split_ifs at he
      · simp only [List.mem_cons, List.mem_map] at he
        rcases he with rfl | ⟨_, _, rfl⟩ <;> simp [Ev.isParse]
      · simp at he
    have hall : ∀ (post : List Ev), (∀ e ∈ post, Ev.isParse e = true) →
        ∀ e ∈ [Ev.NaClLogGetVerbosity] ++ tr ++
          (if nap1.verbosity ≠ 0 then
            Ev.NaClLog .LOG_INFO "zerovm argument list:\n" ::
              w.argv.map fun _ => Ev.NaClLog .LOG_INFO "%s\n"
          else []) ++ post, Ev.isParse e = true := by
      intro post hpost e he
      rw [List.mem_append, List.mem_append] at he
      rcases he with (he | he) | he
      · exact hpre e he
      · exact hlog e he
      · exact hpost e he
    cases m1 with
    | none =>
      refine ⟨_, nap1, hall [.puts] (by simp [Ev.isParse]), Or.inr ⟨.exit 1, by decide, ?_⟩⟩
      by_cases hv : nap1.verbosity = 0 <;>
        simp [ParseCommandLine, h, hv, NaClLog_run, logArgs_run]
    | some name =>
      by_cases hM : w.ManifestCtor name = 0
      · refine ⟨_, { nap1 with
            user_side_flag := 0
            system_manifest := { nap1.system_manifest with nexe := w.GetValueByKey "Nexe" } },
          hall [.ManifestCtor name (w.ManifestCtor name), .GetValueByKey "Nexe"]
            (by simp [Ev.isParse]), Or.inl ⟨0, ?_⟩⟩
        by_cases hv : nap1.verbosity = 0 <;>
          simp [ParseCommandLine, h, hv, hM, NaClLog_run, logArgs_run, COND_ABORT]
      · refine ⟨_, nap1, hall [.ManifestCtor name (w.ManifestCtor name)] (by simp [Ev.isParse]),
          Or.inr ⟨.abort "Invalid manifest file", by decide, ?_⟩⟩
        by_cases hv : nap1.verbosity = 0 <;>
          simp [ParseCommandLine, h, hv, hM, NaClLog_run, logArgs_run, COND_ABORT]
  · refine ⟨[.NaClLogGetVerbosity] ++ tr, nap1, hpre,
      Or.inr ⟨.exit 1, by decide, ?_⟩⟩
    simp [ParseCommandLine, h]

/-! ## `main` -/

/-- The single definition `main` is its remainders chained. -/
theorem main_eq (w : World) : main w = mainFrom234 w := rfl

end ZeroVM
